import Mathlib

/-!
Shallow embedding of the trading bot in `src/bot.py`.

Python floats are modelled as exact rationals (`ℚ`).  Where the Python
code relies on IEEE special values the embedding makes the resulting
behaviour explicit and records the correspondence in the doc comment of
the definition concerned:
  * `avg_gain / avg_loss` with `avg_loss = 0` yields `inf` (positive
    `avg_gain`) or `NaN` (`avg_gain = 0`); the RSI then is `100` resp.
    `NaN`, which we model with `Option ℚ` (`none` = `NaN`).
  * a comparison of a float with Python `None` raises `TypeError`,
    caught by the surrounding `except` handler which returns `0.0`.
-/

namespace Bot

/-- Configuration constant `RSI_PERIOD = 14` (bot.py line 38). -/
def RSI_PERIOD : ℕ := 14

/-- Configuration constant `STOP_LOSS_PERCENT = 0.01` (bot.py line 39). -/
def STOP_LOSS_PERCENT : ℚ := 1 / 100

/-- Configuration constant `TAKE_PROFIT_PERCENT = 0.02` (bot.py line 40). -/
def TAKE_PROFIT_PERCENT : ℚ := 2 / 100

/-- Configuration constant `RESERVED_USDT = 20.0` (bot.py line 41). -/
def RESERVED_USDT : ℚ := 20

/-- `series.diff()` restricted to its defined entries: element `i` is
`prices[i+1] - prices[i]`.  The pandas series additionally carries a `NaN`
at index 0, which `delta.where(delta > 0, 0)` turns into `0`; that leading
zero is re-attached in `gain_series` / `loss_series`. -/
def price_deltas (prices : List ℚ) : List ℚ :=
  List.zipWith (fun a b => a - b) prices.tail prices

/-- `gain = delta.where(delta > 0, 0)` (bot.py line 72).  The `NaN` that
`diff()` places at index 0 fails the condition `delta > 0`, so pandas
replaces it by `0`: the series has the same length as `prices` and starts
with `0`. -/
def gain_series (prices : List ℚ) : List ℚ :=
  match prices with
  | [] => []
  | _ :: _ => 0 :: (price_deltas prices).map (fun d => max d 0)

/-- `loss = -delta.where(delta < 0, 0)` (bot.py line 73), with the same
leading coerced `0` as `gain_series`. -/
def loss_series (prices : List ℚ) : List ℚ :=
  match prices with
  | [] => []
  | _ :: _ => 0 :: (price_deltas prices).map (fun d => max (-d) 0)

/-- Value of `xs.rolling(window=period, min_periods=period).mean()` at the
last index of the series: defined exactly when at least `period` samples
exist (none of the entries of `xs` is `NaN`), and then equal to the mean
of the last `period` entries. -/
def last_rolling_mean (xs : List ℚ) (period : ℕ) : Option ℚ :=
  if xs.length < period then none
  else some ((xs.drop (xs.length - period)).sum / (period : ℚ))

/-- `calculate_rsi` (bot.py lines 69-78), evaluated at the last row of the
frame, which is the value `run_bot` reads.  Float semantics of
`rs = avg_gain / avg_loss; rsi = 100 - 100 / (1 + rs)`:
with `avg_loss = 0` and `avg_gain > 0`, `rs = inf` and `rsi = 100.0`
exactly; with both `0`, `rs = NaN` and `rsi = NaN`, modelled as `none`. -/
def calculate_rsi (prices : List ℚ) (period : ℕ) : Option ℚ :=
  match last_rolling_mean (gain_series prices) period,
        last_rolling_mean (loss_series prices) period with
  | some avg_gain, some avg_loss =>
      if avg_loss = 0 then
        if avg_gain = 0 then none else some 100
      else some (100 - 100 / (1 + avg_gain / avg_loss))
  | _, _ => none

/-- `adjust_quantity` (bot.py lines 99-101):
`math.floor(quantity / step_size) * step_size`. -/
def adjust_quantity (quantity step_size : ℚ) : ℚ :=
  ⌊quantity / step_size⌋ * step_size

/-- Round-half-to-even to an integer, the rounding Python's builtin
`round` uses. -/
def round_half_even (x : ℚ) : ℤ :=
  if Int.fract x < 1 / 2 then ⌊x⌋
  else if 1 / 2 < Int.fract x then ⌊x⌋ + 1
  else if ⌊x⌋ % 2 = 0 then ⌊x⌋ else ⌊x⌋ + 1

/-- `round(x, 6)` (bot.py line 142): round half-to-even at the sixth
fractional digit. -/
def round6 (x : ℚ) : ℚ :=
  (round_half_even (x * 1000000) : ℚ) / 1000000

/-- The filter values `calculate_quantity` extracts from
`client.get_symbol_info(SYMBOL)['filters']` (bot.py lines 117-127): the
`LOT_SIZE` filter yields both `minQty` and `stepSize` (so they are present
or absent together), the `NOTIONAL` filter yields `minNotional`.  An
absent filter leaves the corresponding variable `None`. -/
structure SymbolFilters where
  lotSize : Option (ℚ × ℚ)
  minNotional : Option ℚ
deriving DecidableEq, Repr

/-- `calculate_quantity` (bot.py lines 103-145), with the balance fetched
by `get_balance('USDT')` passed as an argument.  Faithfulness notes:
the embedding's `/ 0 = 0` coincides with the Python value on every path,
because in Python a zero `price` or `step_size` raises
`ZeroDivisionError`, caught by the `except` handler returning `0.0`, and
here every such path also ends in `0`.  When `minNotional` is `None`, the
comparison `trade_value < min_notional` raises `TypeError` (float vs
`None`), likewise caught, returning `0.0` — unless the short-circuited
`quantity < min_qty` already returned `0.0` normally. -/
def calculate_quantity (usdt_balance price : ℚ) (filters : SymbolFilters) : ℚ :=
  if usdt_balance ≤ RESERVED_USDT then 0
  else
    let adjusted_balance := usdt_balance - RESERVED_USDT
    match filters.lotSize with
    | none => 0
    | some (min_qty, step_size) =>
        let max_qty := adjusted_balance / price
        let quantity := adjust_quantity max_qty step_size
        let trade_value := quantity * price
        if quantity < min_qty then 0
        else
          match filters.minNotional with
          | none => 0
          | some min_notional =>
              if trade_value < min_notional then 0 else round6 quantity

/-- One row of the trade log written by `log_trade` (bot.py lines 239-249
for the BUY entry, 260-270 for the SELL entry).  `exit_price` and
`result` are `None` on a BUY. -/
structure TradeRecord where
  side : String
  quantity : ℚ
  entry_price : ℚ
  stop_loss : ℚ
  take_profit : ℚ
  exit_price : Option ℚ
  result : Option String
deriving DecidableEq, Repr

/-- The mutable loop variables of `run_bot` (bot.py lines 214-216):
`position_open`, `entry_price`, `quantity`. -/
structure BotState where
  position_open : Bool
  entry_price : ℚ
  quantity : ℚ
deriving DecidableEq, Repr

/-- Initial state of `run_bot`: `position_open = False`,
`entry_price = 0.0`, `quantity = 0.0`. -/
def initState : BotState := ⟨false, 0, 0⟩

/-- The responses of the external collaborators during one iteration of
the `while True` loop: the last row of the indicator frame
(`ema_fast`, `ema_slow`, `rsi`, `close_price`; `rsi` is `none` when the
last-row RSI is `NaN`), the free USDT balance and the symbol filters read
inside `calculate_quantity`, the ticker price read inside
`monitor_trade`, and whether `client.create_order` succeeds for a BUY
resp. a SELL this tick (`execute_market_order` returns the order on
success and `None` on a caught Binance exception). -/
structure TickInput where
  ema_fast : ℚ
  ema_slow : ℚ
  rsi : Option ℚ
  close_price : ℚ
  balance : ℚ
  filters : SymbolFilters
  current_price : ℚ
  buy_ok : Bool
  sell_ok : Bool

/-- The triple `(order, result, exit price)` returned by `monitor_trade`;
`order` is `true` when `execute_market_order` returned a fill (`false`
both when the sell failed and when no sell was attempted). -/
structure MonitorResult where
  order : Bool
  result : String
  exit_price : ℚ
deriving DecidableEq, Repr

/-- `monitor_trade` (bot.py lines 179-202) on a successfully fetched
ticker price: compares against `entry_price * (1 - STOP_LOSS_PERCENT)`
and `entry_price * (1 + TAKE_PROFIT_PERCENT)`, checking the stop loss
first; `sell_ok` is the outcome of the `execute_market_order(SIDE_SELL,
quantity)` call made in the two closing branches. -/
def monitor_trade (entry_price current_price : ℚ) (sell_ok : Bool) : MonitorResult :=
  let stop_loss_price := entry_price * (1 - STOP_LOSS_PERCENT)
  let take_profit_price := entry_price * (1 + TAKE_PROFIT_PERCENT)
  if current_price ≤ stop_loss_price then ⟨sell_ok, "Stop Loss", current_price⟩
  else if current_price ≥ take_profit_price then ⟨sell_ok, "Take Profit", current_price⟩
  else ⟨false, "Abierta", current_price⟩

/-- The entry condition of bot.py line 230:
`ema_fast > ema_slow and 30 < rsi < 70`.  A `NaN` RSI (`none`) fails the
chained comparison, as it does in Python. -/
def entry_signal (ema_fast ema_slow : ℚ) (rsi : Option ℚ) : Bool :=
  decide (ema_slow < ema_fast) &&
    match rsi with
    | some r => decide (30 < r) && decide (r < 70)
    | none => false

/-- One iteration of the `while True` body of `run_bot` (bot.py lines
218-277) on a tick whose data fetches succeed.  Returns the new loop
state, the trade records handed to `log_trade` this tick, and the
`(side, quantity)` of each `execute_market_order` call made.  Source
correspondences worth noting: on the entry path the local `quantity` is
assigned the sizer's return value even when the buy is not attempted or
fails (line 231 precedes the `quantity > 0` / `order is not None`
checks); on the exit path the reset of the three loop variables (lines
273-275) sits outside the `if order is not None` check of line 257, so
it happens even when the sell order returned `None`. -/
def run_tick (s : BotState) (inp : TickInput) :
    BotState × List TradeRecord × List (String × ℚ) :=
  if s.position_open = false then
    if entry_signal inp.ema_fast inp.ema_slow inp.rsi then
      let quantity := calculate_quantity inp.balance inp.close_price inp.filters
      if 0 < quantity then
        if inp.buy_ok then
          (⟨true, inp.close_price, quantity⟩,
           [⟨"BUY", quantity, inp.close_price,
             inp.close_price * (1 - STOP_LOSS_PERCENT),
             inp.close_price * (1 + TAKE_PROFIT_PERCENT), none, none⟩],
           [("BUY", quantity)])
        else ({ s with quantity := quantity }, [], [("BUY", quantity)])
      else ({ s with quantity := quantity }, [], [])
    else (s, [], [])
  else
    let m := monitor_trade s.entry_price inp.current_price inp.sell_ok
    if m.result = "Stop Loss" ∨ m.result = "Take Profit" then
      (⟨false, 0, 0⟩,
       if m.order then
         [⟨"SELL", s.quantity, s.entry_price,
           s.entry_price * (1 - STOP_LOSS_PERCENT),
           s.entry_price * (1 + TAKE_PROFIT_PERCENT),
           some m.exit_price, some m.result⟩]
       else [],
       [("SELL", s.quantity)])
    else (s, [], [])

/-- Run `run_bot`'s loop body over a sequence of tick inputs starting
from the initial state, accumulating the emitted trade records in
order. -/
def run_trace (inputs : List TickInput) : BotState × List TradeRecord :=
  inputs.foldl
    (fun acc inp =>
      let out := run_tick acc.1 inp
      (out.1, acc.2 ++ out.2.1))
    (initState, [])

/-- Number of records of the given side in a trade log. -/
def count_side (recs : List TradeRecord) (s : String) : ℕ :=
  (recs.filter (fun r => r.side = s)).length

/-- A tick on which the entry signal fires and sizing and the buy both
succeed: spec example values balance 120, price 0.08, minQty 1, step 1,
minNotional 5, for which the sizer yields 1250. -/
def entryInput : TickInput :=
  { ema_fast := 2, ema_slow := 1, rsi := some 50, close_price := 8/100,
    balance := 120, filters := ⟨some (1, 1), some 5⟩,
    current_price := 8/100, buy_ok := true, sell_ok := true }

/-- A tick on which the ticker price 0.07 is below the stop loss of a
position entered at 0.08 (stop loss 0.0792) and the sell order fails. -/
def failedSellInput : TickInput :=
  { ema_fast := 1, ema_slow := 2, rsi := some 50, close_price := 7/100,
    balance := 0, filters := ⟨some (1, 1), some 5⟩,
    current_price := 7/100, buy_ok := false, sell_ok := false }

/-- The BUY record `entryInput` produces. -/
def c2_buy_record : TradeRecord :=
  ⟨"BUY", 1250, 8/100, 8/100 * (1 - STOP_LOSS_PERCENT),
   8/100 * (1 + TAKE_PROFIT_PERCENT), none, none⟩

/-- Successful entry, stop-loss hit with a failed sell, then a second
successful entry. -/
def c2_trace : List TickInput := [entryInput, failedSellInput, entryInput]

/-- Filters whose lot step `1e-7` is finer than the 6 fractional digits
of `round(quantity, 6)`. -/
def c3_filters : SymbolFilters :=
  ⟨some (1/10000000, 1/10000000), some (1/10000000)⟩

/-- A signalling tick with balance `20.0000017` so that the remainder
over the reserve is `1.7e-6`, which the lot step `1e-7` leaves untouched
but `round(·, 6)` rounds up to `2e-6`. -/
def c3_input : TickInput :=
  { ema_fast := 2, ema_slow := 1, rsi := some 50, close_price := 1,
    balance := 200000017/10000000, filters := c3_filters,
    current_price := 1, buy_ok := true, sell_ok := true }

/-- A tick input for a monitoring (`Open`) iteration: only
`current_price` and `sell_ok` are read on that path. -/
def openTickInput (p : ℚ) (ok : Bool) : TickInput :=
  { ema_fast := 0, ema_slow := 0, rsi := none, close_price := 0,
    balance := 0, filters := ⟨none, none⟩, current_price := p,
    buy_ok := false, sell_ok := ok }

/-- Fifteen strictly increasing closes: every defined delta is a gain, so
the rolling mean loss is `0` and the rolling mean gain is `1`. -/
def c8_prices : List ℚ := [1,2,3,4,5,6,7,8,9,10,11,12,13,14,15]

/-- Exactly `RSI_PERIOD` strictly increasing closes — one sample short of
`RSI_PERIOD + 1`. -/
def c9_prices : List ℚ := [1,2,3,4,5,6,7,8,9,10,11,12,13,14]

theorem calculate_quantity_some_none (b p mq ss : ℚ) :
    calculate_quantity b p ⟨some (mq, ss), none⟩ = 0 := by
  unfold calculate_quantity
  split_ifs <;> simp

theorem calculate_quantity_none_lot (b p : ℚ) (mn : Option ℚ) :
    calculate_quantity b p ⟨none, mn⟩ = 0 := by
  unfold calculate_quantity
  split_ifs <;> simp

theorem calculate_quantity_some_some (b p mq ss mn : ℚ) :
    calculate_quantity b p ⟨some (mq, ss), some mn⟩ =
      if b ≤ RESERVED_USDT then 0
      else if adjust_quantity ((b - RESERVED_USDT) / p) ss < mq then 0
      else if adjust_quantity ((b - RESERVED_USDT) / p) ss * p < mn then 0
      else round6 (adjust_quantity ((b - RESERVED_USDT) / p) ss) := rfl

theorem calculate_quantity_pos_rounded (b p : ℚ) (f : SymbolFilters) (mq ss : ℚ)
    (hf : f.lotSize = some (mq, ss))
    (hq : 0 < calculate_quantity b p f) :
    calculate_quantity b p f =
      round6 (adjust_quantity ((b - RESERVED_USDT) / p) ss) := by
  obtain ⟨lot, mnot⟩ := f
  have hf2 : lot = some (mq, ss) := hf
  subst hf2
  rcases mnot with _ | mn
  · rw [calculate_quantity_some_none] at hq
    exact absurd hq (lt_irrefl 0)
  · rw [calculate_quantity_some_some] at hq ⊢
    split_ifs at hq ⊢ <;> first | rfl | exact absurd hq (lt_irrefl 0)

theorem entry_tick_eval : run_tick ⟨false, 0, 0⟩ entryInput =
    (⟨true, 8/100, 1250⟩, [c2_buy_record], [("BUY", 1250)]) := by
  norm_num [run_tick, entryInput, entry_signal, calculate_quantity, c2_buy_record,
    adjust_quantity, round6, round_half_even, RESERVED_USDT, Int.fract]

theorem failed_sell_tick_eval : run_tick ⟨true, 8/100, 1250⟩ failedSellInput =
    (⟨false, 0, 0⟩, [], [("SELL", 1250)]) := by
  norm_num [run_tick, monitor_trade, failedSellInput, STOP_LOSS_PERCENT,
    TAKE_PROFIT_PERCENT]

/-- Claim C1: with the machine `Open` (entry price 0.08, quantity 1250)
and a tick whose price 0.07 triggers the stop loss but whose sell order
fails, the loop body nonetheless resets the position to the cleared
`Searching` state while emitting no SELL record — it does NOT remain
`Open`, because the reset of bot.py lines 273-275 sits outside the
`if order is not None` check.  The single sell submission shows the exit
was attempted and reported unfilled. -/
theorem run_tick_sell_failure_resets_position :
    run_tick ⟨true, 8/100, 1250⟩ failedSellInput =
      (⟨false, 0, 0⟩, [], [("SELL", 1250)]) ∧
    (run_tick ⟨true, 8/100, 1250⟩ failedSellInput).1 ≠ ⟨true, 8/100, 1250⟩ := by
  refine ⟨failed_sell_tick_eval, ?_⟩
  rw [failed_sell_tick_eval]
  simp

/-- Claim C2: on the reachable trace "successful entry, stop-loss tick
with failed sell, successful entry" the trade log holds two BUY records
and no SELL record, so the BUY count exceeds the SELL count by 2; and
already after the failed sell the machine reports no open position even
though the most recent record is a BUY with no SELL after it — both
parts of the claimed invariant fail on the code. -/
theorem run_trace_buy_count_violation :
    count_side (run_trace c2_trace).2 "BUY" = 2 ∧
    count_side (run_trace c2_trace).2 "SELL" = 0 ∧
    count_side (run_trace c2_trace).2 "SELL" + 1 <
      count_side (run_trace c2_trace).2 "BUY" ∧
    (run_trace [entryInput, failedSellInput]).1.position_open = false ∧
    ((run_trace [entryInput, failedSellInput]).2.getLast?).map TradeRecord.side =
      some "BUY" := by
  have h : run_trace c2_trace = (⟨true, 8/100, 1250⟩, [c2_buy_record, c2_buy_record]) := by
    simp [run_trace, c2_trace, initState, List.foldl, entry_tick_eval, failed_sell_tick_eval]
  have h2 : run_trace [entryInput, failedSellInput] = (⟨false, 0, 0⟩, [c2_buy_record]) := by
    simp [run_trace, initState, List.foldl, entry_tick_eval, failed_sell_tick_eval]
  refine ⟨?_, ?_, ?_, ?_, ?_⟩ <;>
    simp [h, h2, count_side, List.filter, c2_buy_record]

/-- Claim C4: for positive remainder, price and step, the sized quantity
`adjust_quantity (remainder / price) step` floors down to a multiple of
the step — it never exceeds the raw quantity `remainder / price` — and
consequently the notional `quantity * price` never exceeds the
remainder. -/
theorem adjust_quantity_floor_notional_le (remainder price step : ℚ)
    (_hr : 0 < remainder) (hp : 0 < price) (hstep : 0 < step) :
    adjust_quantity (remainder / price) step ≤ remainder / price ∧
    (∃ k : ℤ, adjust_quantity (remainder / price) step = k * step) ∧
    adjust_quantity (remainder / price) step * price ≤ remainder := by
  have h1 : adjust_quantity (remainder / price) step ≤ remainder / price := by
    calc adjust_quantity (remainder / price) step
        = (⌊remainder / price / step⌋ : ℚ) * step := rfl
      _ ≤ remainder / price / step * step :=
          mul_le_mul_of_nonneg_right (Int.floor_le _) hstep.le
      _ = remainder / price := div_mul_cancel₀ _ hstep.ne'
  refine ⟨h1, ⟨⌊remainder / price / step⌋, rfl⟩, ?_⟩
  calc adjust_quantity (remainder / price) step * price
      ≤ remainder / price * price := mul_le_mul_of_nonneg_right h1 hp.le
    _ = remainder := div_mul_cancel₀ _ hp.ne'

/-- Witness for C4 at the spec's sizing example: remainder 100, price
0.08, step 1, where the floored quantity is 1250 and the notional is
exactly 100. -/
theorem adjust_quantity_floor_notional_le_witness :
    (0:ℚ) < 100 ∧ (0:ℚ) < 8/100 ∧ (0:ℚ) < 1 ∧
    (adjust_quantity (100 / (8/100)) 1 ≤ 100 / (8/100) ∧
     (∃ k : ℤ, adjust_quantity (100 / (8/100)) 1 = k * 1) ∧
     adjust_quantity (100 / (8/100)) 1 * (8/100) ≤ 100) :=
  ⟨by norm_num, by norm_num, by norm_num,
   adjust_quantity_floor_notional_le 100 (8/100) 1 (by norm_num) (by norm_num)
     (by norm_num)⟩

/-- Claim C7: whenever the available balance does not exceed the fixed
reserve, the sizer returns 0 regardless of price and filters, and a
searching tick with that balance submits no order and emits no record,
staying out of a position. -/
theorem calculate_quantity_insufficient_reserve (b p : ℚ) (f : SymbolFilters)
    (hb : b ≤ RESERVED_USDT) :
    calculate_quantity b p f = 0 ∧
    ∀ (s : BotState) (inp : TickInput), s.position_open = false →
      inp.balance = b → inp.close_price = p → inp.filters = f →
      (run_tick s inp).2.1 = [] ∧ (run_tick s inp).2.2 = [] ∧
      (run_tick s inp).1.position_open = false := by
  have hq : calculate_quantity b p f = 0 := by
    unfold calculate_quantity
    rw [if_pos hb]
  refine ⟨hq, ?_⟩
  intro s inp hs hbal hcp hf
  have hq0 : calculate_quantity inp.balance inp.close_price inp.filters = 0 := by
    rw [hbal, hcp, hf, hq]
  by_cases hsig : entry_signal inp.ema_fast inp.ema_slow inp.rsi = true
  · simp [run_tick, hs, hsig, hq0]
  · simp [run_tick, hs, hsig]

/-- Witness for C7 at the spec's rejection example: balance 15 against
the reserve of 20. -/
theorem calculate_quantity_insufficient_reserve_witness :
    (15:ℚ) ≤ RESERVED_USDT ∧
    calculate_quantity 15 (8/100) ⟨some (1, 1), some 5⟩ = 0 :=
  ⟨by norm_num [RESERVED_USDT],
   (calculate_quantity_insufficient_reserve 15 (8/100) ⟨some (1, 1), some 5⟩
      (by norm_num [RESERVED_USDT])).1⟩

/-- Claim C10: with a `LOT_SIZE` filter but no `NOTIONAL` filter the
sizer returns 0 (the comparison of the notional with the absent value
raises, and the handler returns 0.0, unless the min-quantity check
already rejected); with no `LOT_SIZE` filter it returns 0 through the
explicit `step_size is None` check — in every case no quantity is
accepted. -/
theorem calculate_quantity_missing_filters_zero (b p mq ss mn : ℚ) :
    calculate_quantity b p ⟨some (mq, ss), none⟩ = 0 ∧
    calculate_quantity b p ⟨none, some mn⟩ = 0 ∧
    calculate_quantity b p ⟨none, none⟩ = 0 := by
  refine ⟨?_, ?_, ?_⟩ <;> unfold calculate_quantity <;> split_ifs <;> simp

/-- Claim C5: on a searching tick, nothing at all happens unless
`ema_fast > ema_slow` and `30 < rsi < 70` (an RSI of exactly 30 or 70
fails the strict bounds); when the signal fires, a successful sizing and
fill transition to `Open` and emit exactly one BUY record with null exit
price and null result, a failed fill stays out of a position with no
record, and a sizing rejection stays out of a position with no record
and no order submitted. -/
theorem searching_entry_transition (s : BotState) (inp : TickInput)
    (hs : s.position_open = false) :
    (entry_signal inp.ema_fast inp.ema_slow inp.rsi = false →
       run_tick s inp = (s, [], [])) ∧
    ((inp.rsi = some 30 ∨ inp.rsi = some 70) →
       entry_signal inp.ema_fast inp.ema_slow inp.rsi = false) ∧
    (entry_signal inp.ema_fast inp.ema_slow inp.rsi = true →
       (0 < calculate_quantity inp.balance inp.close_price inp.filters →
          inp.buy_ok = true →
          run_tick s inp =
            (⟨true, inp.close_price,
              calculate_quantity inp.balance inp.close_price inp.filters⟩,
             [⟨"BUY", calculate_quantity inp.balance inp.close_price inp.filters,
               inp.close_price, inp.close_price * (1 - STOP_LOSS_PERCENT),
               inp.close_price * (1 + TAKE_PROFIT_PERCENT), none, none⟩],
             [("BUY", calculate_quantity inp.balance inp.close_price inp.filters)])) ∧
       (0 < calculate_quantity inp.balance inp.close_price inp.filters →
          inp.buy_ok = false →
          (run_tick s inp).1.position_open = false ∧ (run_tick s inp).2.1 = []) ∧
       (¬ 0 < calculate_quantity inp.balance inp.close_price inp.filters →
          (run_tick s inp).1.position_open = false ∧ (run_tick s inp).2.1 = [] ∧
          (run_tick s inp).2.2 = [])) := by
  refine ⟨?_, ?_, ?_⟩
  · intro hsig
    simp [run_tick, hs, hsig]
  · rintro (h | h) <;> rw [h] <;> simp only [entry_signal]
    · rw [decide_eq_false (by norm_num : ¬ ((30:ℚ) < 30))]
      simp
    · rw [decide_eq_false (by norm_num : ¬ ((70:ℚ) < 70))]
      simp
  · intro hsig
    refine ⟨?_, ?_, ?_⟩
    · intro hq hb
      simp [run_tick, hs, hsig, hq, hb]
    · intro hq hb
      simp [run_tick, hs, hsig, hq, hb]
    · intro hq
      simp [run_tick, hs, hsig, hq]

/-- Witness for C5: from the initial state, the tick with EMA fast 2 >
slow 1, RSI 50, and the spec's sizing example (quantity 1250) opens the
position and emits the single BUY record. -/
theorem searching_entry_transition_witness :
    initState.position_open = false ∧
    entry_signal entryInput.ema_fast entryInput.ema_slow entryInput.rsi = true ∧
    0 < calculate_quantity entryInput.balance entryInput.close_price entryInput.filters ∧
    entryInput.buy_ok = true ∧
    run_tick initState entryInput =
      (⟨true, entryInput.close_price,
        calculate_quantity entryInput.balance entryInput.close_price entryInput.filters⟩,
       [⟨"BUY", calculate_quantity entryInput.balance entryInput.close_price entryInput.filters,
         entryInput.close_price, entryInput.close_price * (1 - STOP_LOSS_PERCENT),
         entryInput.close_price * (1 + TAKE_PROFIT_PERCENT), none, none⟩],
       [("BUY", calculate_quantity entryInput.balance entryInput.close_price entryInput.filters)]) :=
  ⟨rfl,
   by norm_num [entryInput, entry_signal],
   by norm_num [entryInput, calculate_quantity, adjust_quantity, round6,
     round_half_even, RESERVED_USDT, Int.fract],
   rfl,
   ((searching_entry_transition initState entryInput rfl).2.2
      (by norm_num [entryInput, entry_signal])).1
     (by norm_num [entryInput, calculate_quantity, adjust_quantity, round6,
       round_half_even, RESERVED_USDT, Int.fract])
     rfl⟩

/-- Claim C6: while `Open`, the price is compared with
`entryPrice * (1 - STOP_LOSS_PERCENT)` and
`entryPrice * (1 + TAKE_PROFIT_PERCENT)`; at or below the stop loss the
reason is "Stop Loss" (checked first), otherwise at or above the take
profit it is "Take Profit", and strictly between the two thresholds the
position stays open with no sell attempted and no record; concretely
from entry price 1.00, price 0.98 closes as "Stop Loss", price 1.03
closes as "Take Profit", and price 1.00 leaves everything unchanged. -/
theorem open_exit_priority (e qt price : ℚ) (ok : Bool) :
    (price ≤ e * (1 - STOP_LOSS_PERCENT) →
       monitor_trade e price ok = ⟨ok, "Stop Loss", price⟩) ∧
    (e * (1 - STOP_LOSS_PERCENT) < price → e * (1 + TAKE_PROFIT_PERCENT) ≤ price →
       monitor_trade e price ok = ⟨ok, "Take Profit", price⟩) ∧
    (e * (1 - STOP_LOSS_PERCENT) < price → price < e * (1 + TAKE_PROFIT_PERCENT) →
       run_tick ⟨true, e, qt⟩ (openTickInput price ok) = (⟨true, e, qt⟩, [], [])) ∧
    run_tick ⟨true, 1, qt⟩ (openTickInput (98/100) true) =
      (⟨false, 0, 0⟩,
       [⟨"SELL", qt, 1, 1 * (1 - STOP_LOSS_PERCENT), 1 * (1 + TAKE_PROFIT_PERCENT),
         some (98/100), some "Stop Loss"⟩],
       [("SELL", qt)]) ∧
    run_tick ⟨true, 1, qt⟩ (openTickInput (103/100) true) =
      (⟨false, 0, 0⟩,
       [⟨"SELL", qt, 1, 1 * (1 - STOP_LOSS_PERCENT), 1 * (1 + TAKE_PROFIT_PERCENT),
         some (103/100), some "Take Profit"⟩],
       [("SELL", qt)]) ∧
    run_tick ⟨true, 1, qt⟩ (openTickInput 1 true) = (⟨true, 1, qt⟩, [], []) := by
  refine ⟨?_, ?_, ?_, ?_, ?_, ?_⟩
  · intro h
    simp [monitor_trade, h]
  · intro h1 h2
    simp [monitor_trade, not_le.2 h1, h2]
  · intro h1 h2
    simp [run_tick, monitor_trade, openTickInput, not_le.2 h1, not_le.2 h2]
  · norm_num [run_tick, monitor_trade, openTickInput, STOP_LOSS_PERCENT,
      TAKE_PROFIT_PERCENT]
  · norm_num [run_tick, monitor_trade, openTickInput, STOP_LOSS_PERCENT,
      TAKE_PROFIT_PERCENT]
  · norm_num [run_tick, monitor_trade, openTickInput, STOP_LOSS_PERCENT,
      TAKE_PROFIT_PERCENT]
    exact ⟨by decide, by decide⟩

/-- Witness for C6: the stop-loss branch instantiated at entry price 1
and price 0.98. -/
theorem open_exit_priority_witness :
    (98/100 : ℚ) ≤ 1 * (1 - STOP_LOSS_PERCENT) ∧
    monitor_trade 1 (98/100) true = ⟨true, "Stop Loss", 98/100⟩ :=
  ⟨by norm_num [STOP_LOSS_PERCENT],
   (open_exit_priority 1 5 (98/100) true).1
     (by norm_num [STOP_LOSS_PERCENT])⟩

/-- Counterexample to claim C3 as stated: with lot step `1e-7`, balance
`20.0000017` and price 1, the floored step-aligned quantity is `1.7e-6`,
the sizer returns the rounded value `2e-6`, and the quantity submitted
with the BUY order is that rounded return value — not the unrounded
floored value, from which it differs. -/
theorem submitted_quantity_is_rounded_counterexample :
    calculate_quantity c3_input.balance c3_input.close_price c3_input.filters =
      1/500000 ∧
    adjust_quantity ((c3_input.balance - RESERVED_USDT) / c3_input.close_price)
      (1/10000000) = 17/10000000 ∧
    (run_tick initState c3_input).2.2 = [("BUY", 1/500000)] ∧
    (1/500000 : ℚ) ≠ 17/10000000 := by
  refine ⟨?_, ?_, ?_, by norm_num⟩
  · norm_num [c3_input, c3_filters, calculate_quantity, adjust_quantity, round6,
      round_half_even, RESERVED_USDT, Int.fract]
  · norm_num [c3_input, adjust_quantity, RESERVED_USDT]
  · norm_num [run_tick, initState, c3_input, c3_filters, entry_signal,
      calculate_quantity, adjust_quantity, round6, round_half_even,
      RESERVED_USDT, Int.fract]

/-- Claim C3 as amended: on every successful sizing the sizer returns the
floored step-aligned quantity rounded to 6 fractional digits, and that
rounded return value is the quantity submitted to the order executor for
the BUY. -/
theorem submitted_quantity_eq_rounded (s : BotState) (inp : TickInput) (mq ss : ℚ)
    (hs : s.position_open = false)
    (hsig : entry_signal inp.ema_fast inp.ema_slow inp.rsi = true)
    (hf : inp.filters.lotSize = some (mq, ss))
    (hq : 0 < calculate_quantity inp.balance inp.close_price inp.filters) :
    calculate_quantity inp.balance inp.close_price inp.filters =
      round6 (adjust_quantity ((inp.balance - RESERVED_USDT) / inp.close_price) ss) ∧
    (run_tick s inp).2.2 =
      [("BUY", calculate_quantity inp.balance inp.close_price inp.filters)] := by
  refine ⟨calculate_quantity_pos_rounded _ _ _ _ _ hf hq, ?_⟩
  cases hbo : inp.buy_ok <;> simp [run_tick, hs, hsig, hq, hbo]

/-- Witness for the amended C3 at the counterexample input, where the
rounding is visible: the sizer returns `2e-6` and that is the submitted
BUY quantity. -/
theorem submitted_quantity_eq_rounded_witness :
    initState.position_open = false ∧
    entry_signal c3_input.ema_fast c3_input.ema_slow c3_input.rsi = true ∧
    c3_input.filters.lotSize = some (1/10000000, 1/10000000) ∧
    0 < calculate_quantity c3_input.balance c3_input.close_price c3_input.filters ∧
    (calculate_quantity c3_input.balance c3_input.close_price c3_input.filters =
       round6 (adjust_quantity
         ((c3_input.balance - RESERVED_USDT) / c3_input.close_price) (1/10000000)) ∧
     (run_tick initState c3_input).2.2 =
       [("BUY", calculate_quantity c3_input.balance c3_input.close_price c3_input.filters)]) :=
  ⟨rfl,
   by norm_num [c3_input, entry_signal],
   rfl,
   by norm_num [c3_input, c3_filters, calculate_quantity, adjust_quantity, round6,
     round_half_even, RESERVED_USDT, Int.fract],
   submitted_quantity_eq_rounded initState c3_input (1/10000000) (1/10000000) rfl
     (by norm_num [c3_input, entry_signal]) rfl
     (by norm_num [c3_input, c3_filters, calculate_quantity, adjust_quantity, round6,
       round_half_even, RESERVED_USDT, Int.fract])⟩

/-- Claim C8: when the rolling mean loss is 0 and the rolling mean gain
is positive the RSI is exactly 100; when both are 0 the RSI is undefined
(`NaN`, here `none`); and neither an undefined RSI nor the value 100 can
satisfy the entry condition, so no invalid value propagates into the
entry decision. -/
theorem calculate_rsi_zero_loss (prices : List ℚ) (period : ℕ) (g : ℚ)
    (hl : last_rolling_mean (loss_series prices) period = some 0) :
    (last_rolling_mean (gain_series prices) period = some g → 0 < g →
       calculate_rsi prices period = some 100) ∧
    (last_rolling_mean (gain_series prices) period = some 0 →
       calculate_rsi prices period = none) ∧
    (∀ ef es : ℚ, entry_signal ef es none = false) ∧
    (∀ ef es : ℚ, entry_signal ef es (some 100) = false) := by
  refine ⟨?_, ?_, ?_, ?_⟩
  · intro hg hpos
    unfold calculate_rsi
    rw [hg, hl]
    simp [hpos.ne']
  · intro hg
    unfold calculate_rsi
    rw [hg, hl]
    simp
  · intro ef es
    simp [entry_signal]
  · intro ef es
    simp only [entry_signal]
    rw [decide_eq_false (by norm_num : ¬ ((100:ℚ) < 70))]
    simp

/-- Witness for C8 on fifteen strictly increasing closes: the mean loss
is 0, the mean gain is 1, and the RSI is exactly 100. -/
theorem calculate_rsi_zero_loss_witness :
    last_rolling_mean (loss_series c8_prices) RSI_PERIOD = some 0 ∧
    last_rolling_mean (gain_series c8_prices) RSI_PERIOD = some 1 ∧
    calculate_rsi c8_prices RSI_PERIOD = some 100 :=
  ⟨by norm_num [c8_prices, loss_series, price_deltas, last_rolling_mean, RSI_PERIOD],
   by norm_num [c8_prices, gain_series, price_deltas, last_rolling_mean, RSI_PERIOD],
   (calculate_rsi_zero_loss c8_prices RSI_PERIOD 1
      (by norm_num [c8_prices, loss_series, price_deltas, last_rolling_mean,
        RSI_PERIOD])).1
     (by norm_num [c8_prices, gain_series, price_deltas, last_rolling_mean,
       RSI_PERIOD])
     (by norm_num)⟩

theorem gain_series_length (prices : List ℚ) :
    (gain_series prices).length = prices.length := by
  cases prices with
  | nil => rfl
  | cons a l =>
      simp [gain_series, price_deltas]

/-- Counterexample to claim C9 as stated: a window of exactly
`RSI_PERIOD` = 14 samples — fewer than `RSI_PERIOD + 1` — already
produces an RSI value (here 100), because the undefined first delta is
coerced to a zero gain and a zero loss and so counts towards the rolling
window. -/
theorem calculate_rsi_defined_at_period_samples :
    c9_prices.length = RSI_PERIOD ∧
    c9_prices.length < RSI_PERIOD + 1 ∧
    calculate_rsi c9_prices RSI_PERIOD = some 100 := by
  refine ⟨by norm_num [c9_prices, RSI_PERIOD], by norm_num [c9_prices, RSI_PERIOD], ?_⟩
  norm_num [calculate_rsi, last_rolling_mean, gain_series, loss_series,
    price_deltas, c9_prices, RSI_PERIOD]

/-- Claim C9 as amended: when the window holds fewer than `RSI_PERIOD`
samples (not `RSI_PERIOD + 1`: the coerced first delta counts) no RSI
value is produced, and the caller treats the undefined RSI as "no signal
yet" — the searching tick changes nothing, emits nothing, and submits
nothing, rather than failing. -/
theorem calculate_rsi_short_window_none (prices : List ℚ) (period : ℕ)
    (h : prices.length < period) :
    calculate_rsi prices period = none ∧
    (∀ (s : BotState) (inp : TickInput), s.position_open = false → inp.rsi = none →
       run_tick s inp = (s, [], [])) := by
  constructor
  · have hg : last_rolling_mean (gain_series prices) period = none := by
      unfold last_rolling_mean
      rw [gain_series_length]
      exact if_pos h
    simp [calculate_rsi, hg]
  · intro s inp hs hrsi
    have hsig : entry_signal inp.ema_fast inp.ema_slow inp.rsi = false := by
      rw [hrsi]
      simp [entry_signal]
    simp [run_tick, hs, hsig]

/-- Witness for the amended C9 on a three-sample window. -/
theorem calculate_rsi_short_window_none_witness :
    ([1, 2, 3] : List ℚ).length < RSI_PERIOD ∧
    calculate_rsi [1, 2, 3] RSI_PERIOD = none :=
  ⟨by norm_num [RSI_PERIOD],
   (calculate_rsi_short_window_none [1, 2, 3] RSI_PERIOD
      (by norm_num [RSI_PERIOD])).1⟩

end Bot
